import Mathlib

/-!
Verification of the Search Orchestration & Multi-Source Discovery Engine of
the chatbot-agent repository, as a shallow embedding in Lean 4.

Source files embedded here:
  - src/src/services/search_service.py   (SearchService: search_sns_content,
    _search_all_time_ranges_parallel, _sort_by_recency, metadata tagging)
  - src/src/services/search_orchestrator.py (SearchOrchestrator: execute_search,
    _search_general_context, _search_sns_content_with_fallback)
  - src/src/utils/decorators.py          (retry_on_error, log_search_execution)
  - src/src/models/session_manager.py    (session bookkeeping interface)
  - src/src/services/search_type.py, src/src/models/analysis_result.py

External I/O (HTTP calls to the image-search and video APIs, the LLM relevance
agent, wall-clock dates) is abstracted into explicit environment parameters;
everything that the Python code computes on the returned data is modelled
faithfully, field by field and branch by branch.
-/

namespace ChatbotAgent

/-- One discovered content item, mirroring the candidate dictionaries built in
`_search_google_images` / `_search_youtube_direct` and enriched with the
`time_range_priority` key by `_search_*_with_metadata`
(src/src/services/search_service.py). A candidate fresh from a provider has
`time_range_priority = none`; the metadata wrappers set it. -/
structure Candidate where
  platform : String
  url : String
  thumbnail : String
  title : String
  source : String
  time_range_priority : Option String := none
deriving DecidableEq, Repr

/-- The result dictionary `{found: True, platform, url, thumbnail, title}`
returned by `search_sns_content` on success; `{found: False}` is modelled as
`none` at the call sites. -/
structure SnsFound where
  platform : String
  url : String
  thumbnail : String
  title : String
deriving DecidableEq, Repr

/-- Projection of a candidate to the success dictionary returned by
`search_sns_content` (src/src/services/search_service.py lines 142-148). -/
def to_found (c : Candidate) : SnsFound :=
  { platform := c.platform, url := c.url, thumbnail := c.thumbnail, title := c.title }

/-- The relevance checker `relevance_checker.act(user_question, sns_title,
platform, search_term)` consumed (not implemented) by the engine. -/
def RelChecker : Type := String → String → String → String → Bool

/-- The four time-range windows of `search_sns_content`
(src/src/services/search_service.py lines 76-81), in their source order:
a provider filter token `tbs` and a label. -/
structure TimeRange where
  tbs : Option String
  label : String
deriving DecidableEq, Repr

/-- The time-range catalog, literally lines 76-81 of search_service.py. -/
def time_ranges : List TimeRange :=
  [⟨some "qdr:m3", "최근 3개월"⟩,
   ⟨some "qdr:m6", "최근 6개월"⟩,
   ⟨some "qdr:y", "최근 1년"⟩,
   ⟨none, "전체 기간"⟩]

/-- Metadata tagging performed by `_search_google_images_with_metadata` and
`_search_youtube_direct_with_metadata`: every candidate of one fetch gets the
window's label stored under `time_range_priority`. -/
def with_time_range_meta (label : String) (cs : List Candidate) : List Candidate :=
  cs.map (fun c => { c with time_range_priority := some label })

/-- The per-turn provider results: what each of the two fetch operations
returns for a given window filter. `images_fetch` stands for
`_search_google_images` (already URL-shape-filtered and capped by that
function), `youtube_fetch` for `_search_youtube_direct` with the
`publishedAfter` value derived from the same window. -/
structure ProviderEnv where
  images_fetch : Option String → List Candidate
  youtube_fetch : Option String → List Candidate

/-- The task list in submission order, mirroring the submission loop of
`_search_all_time_ranges_parallel` (search_service.py lines 206-225): for each
time range, the Google-Images task is submitted first, then the YouTube task,
each already composed with its metadata tagging. -/
def submitted_tasks (env : ProviderEnv) : List (List Candidate) :=
  (time_ranges.map (fun tr =>
    [with_time_range_meta tr.label (env.images_fetch tr.tbs),
     with_time_range_meta tr.label (env.youtube_fetch tr.tbs)])).flatten

/-- The URL-dedup loop of `_search_all_time_ranges_parallel`
(search_service.py lines 236-243), with the running `seen_urls` set made
explicit: a candidate is kept iff its url is non-empty and not seen before. -/
def dedup_go : List Candidate → List String → List Candidate
  | [], _ => []
  | c :: rest, seen =>
    if c.url ≠ "" ∧ c.url ∉ seen then
      c :: dedup_go rest (c.url :: seen)
    else
      dedup_go rest seen

/-- Deduplication by url, keeping the first occurrence, exactly as the loop at
search_service.py lines 236-243 starting from an empty `seen_urls`. -/
def dedup_by_url (cs : List Candidate) : List Candidate :=
  dedup_go cs []

/-- The gathered-and-deduplicated candidate list of
`_search_all_time_ranges_parallel`: the `as_completed` loop extends
`all_candidates` with each task's result in completion order, then the dedup
loop runs. `completed` is the list of per-task results in the (scheduler
chosen) completion order; the caller relates it to `submitted_tasks` by a
permutation hypothesis. -/
def merged_candidates (completed : List (List Candidate)) : List Candidate :=
  dedup_by_url completed.flatten

/-- The `time_range_order` dictionary of `_sort_by_recency`
(search_service.py lines 277-282), with the dictionary's `.get(_, 999)`
default. -/
def time_range_order (s : String) : Nat :=
  if s = "최근 3개월" then 0
  else if s = "최근 6개월" then 1
  else if s = "최근 1년" then 2
  else if s = "전체 기간" then 3
  else 999

/-- `get_priority` of `_sort_by_recency` (lines 284-286):
`candidate.get("time_range_priority", "전체 기간")` looked up in the order
table. -/
def get_priority (c : Candidate) : Nat :=
  time_range_order (c.time_range_priority.getD "전체 기간")

/-- Stable insertion used to model Python's stable `sorted(.., key=get_priority)`:
the element being inserted comes from earlier in the original list, so it is
placed before any element of equal key. -/
def insert_by_priority (c : Candidate) : List Candidate → List Candidate
  | [] => [c]
  | d :: rest =>
    if get_priority d < get_priority c then d :: insert_by_priority c rest
    else c :: d :: rest

/-- `_sort_by_recency` (search_service.py lines 274-288): Python's `sorted`
is a stable sort by the key; modelled as a stable insertion sort, which
computes the identical list. -/
def sort_by_recency : List Candidate → List Candidate
  | [] => []
  | c :: rest => insert_by_priority c (sort_by_recency rest)

/-- The relevance-validation loop of `search_sns_content`
(search_service.py lines 117-166), instrumented with the number of
`relevance_checker.act` calls it performs. Per iteration: when a checker is
supplied and the user question is non-empty (Python truthiness of
`relevance_checker and user_question`), one check runs; a relevant candidate
is returned immediately, an irrelevant one is skipped; otherwise the candidate
is returned outright with no check. -/
def sns_validate_loop (checker : Option RelChecker) (question query : String) :
    List Candidate → Option SnsFound × Nat
  | [] => (none, 0)
  | c :: rest =>
    match checker with
    | some f =>
      if question ≠ "" then
        if f question c.title c.platform query then
          (some (to_found c), 1)
        else
          let r := sns_validate_loop (some f) question query rest
          (r.1, r.2 + 1)
      else (some (to_found c), 0)
    | none => (some (to_found c), 0)

/-- `search_sns_content` (search_service.py lines 66-172) over gathered task
results: merge and dedup, return not-found on an empty candidate list, else
sort by recency and run the validation loop. The pair's second component is
the instrumented relevance-check count. -/
def search_sns_content (checker : Option RelChecker) (question query : String)
    (completed : List (List Candidate)) : Option SnsFound × Nat :=
  let all := merged_candidates completed
  if all = [] then (none, 0)
  else sns_validate_loop checker question query (sort_by_recency all)

/-! ## Session collaborator (src/src/models/session_manager.py) -/

/-- One chat message as stored by `add_message` (session_manager.py lines
163-167): role, content, and the optional attached social-content payload. -/
structure Message where
  role : String
  content : String
  sns_content : Option SnsFound := none
deriving DecidableEq, Repr

/-- The session fields touched by the search core, as initialised by
`initialize_session_state` (session_manager.py lines 135-145). -/
structure SessionState where
  proactive_share_count : Nat := 0
  shared_topics_list : List String := []
  messages : List Message := []
deriving DecidableEq, Repr

/-- `add_shared_topic` (session_manager.py lines 211-213): appends the topic
unless it is already present. Declared by the session interface for the
shared-topics memory; no code in the repository ever calls it. -/
def add_shared_topic (s : SessionState) (topic : String) : SessionState :=
  if topic ∈ s.shared_topics_list then s
  else { s with shared_topics_list := s.shared_topics_list ++ [topic] }

/-- `increment_proactive_share_count` (session_manager.py lines 208-209).
Declared by the session interface; no code in the repository ever calls it. -/
def increment_proactive_share_count (s : SessionState) : SessionState :=
  { s with proactive_share_count := s.proactive_share_count + 1 }

/-- Modelled from the spec: the session-collaborator query
`hasSocialContentInLastNTurns(n)` (spec section 6), which the repository
declares a session interface for but never implements or calls — a recent
turn counts when its stored assistant message carries an attached
social-content payload (`sns_content`, see `add_message`). -/
def has_social_content_in_last_n_turns (s : SessionState) (n : Nat) : Bool :=
  (s.messages.reverse.take n).any (fun m => m.sns_content.isSome)

/-! ## Analysis state (src/src/services/search_type.py,
src/src/models/analysis_result.py) -/

/-- The `SearchType` enum. -/
inductive SearchType where
  | NO_SEARCH
  | TERM_SEARCH
  | SNS_SEARCH
  | GENERAL_TOPIC_SEARCH
deriving DecidableEq, Repr

/-- The `AnalysisResult` dataclass: search type, optional search term and the
media-request flag. -/
structure AnalysisResult where
  search_type : SearchType := .NO_SEARCH
  search_term : Option String := none
  is_media_requested : Bool := false
deriving DecidableEq, Repr

/-! ## Search orchestrator (src/src/services/search_orchestrator.py) -/

/-- The per-turn environment of one `execute_search` call, abstracting the
external I/O the orchestrator's helpers perform:
`has_service` is whether `self.search_service` was constructed (a SerpAPI key
was present); `summary_of q` is `extract_summary(search_web(q))`;
`current_date` is `get_formatted_date(datetime.now())`; `completed_tasks` is
the gathered per-task provider output of this turn's parallel SNS search, in
completion order; `checker` is the relevance agent `self.relevance_check_agent`
(always passed to `search_sns_content` by the orchestrator). -/
structure OrchestratorEnv where
  has_service : Bool
  summary_of : String → String
  current_date : String
  completed_tasks : List (List Candidate)
  checker : RelChecker

/-- `_search_general_context` (search_orchestrator.py lines 148-172): returns
`("", None)` without a search service, otherwise formats the web-search
summary with the current date, appending the term instruction when asked. -/
def search_general_context (env : OrchestratorEnv) (search_term : String)
    (add_term_instruction : Bool) : String × Option SnsFound :=
  if env.has_service = false then ("", none)
  else
    let base := "\n\n[검색 정보: '" ++ search_term ++ "']\n" ++
      env.summary_of search_term ++ "\n\n[참고] 오늘 날짜: " ++ env.current_date ++ "\n"
    let ctx :=
      if add_term_instruction then
        base ++ "\n[지시사항] 위 검색 정보를 바탕으로 자연스럽게 답변하세요. 검색어('" ++
          search_term ++ "')를 그대로 반복하지 말고, 그 의미를 이해한 상태로 대화하세요.\n"
      else base
    (ctx, none)

/-- `_search_sns_content_with_fallback` (search_orchestrator.py lines 174-208),
instrumented with whether `search_service.search_sns_content` was invoked:
without a service it returns `("", None)` untried; otherwise the SNS search
runs, a found candidate is formatted platform-specifically, and a not-found
result falls back to `_search_general_context(search_term)`. -/
def search_sns_content_with_fallback (env : OrchestratorEnv)
    (search_term question : String) : (String × Option SnsFound) × Bool :=
  if env.has_service = false then (("", none), false)
  else
    let sns := (search_sns_content (some env.checker) question search_term
      env.completed_tasks).1
    match sns with
    | some found =>
      let platform_name := if found.platform = "instagram" then "Instagram" else "YouTube"
      (("\n\n[" ++ platform_name ++ " 게시물 정보]\n" ++ found.title ++
        "\n\n[참고] 오늘 날짜: " ++ env.current_date ++ "\n", some found), true)
    | none => (search_general_context env search_term false, true)

/-- The full observable outcome of one `execute_search` call: the returned
pair, whether the Discovery Engine (`search_sns_content`) was invoked, and the
session state after the call. -/
structure SearchOutcome where
  context : String
  candidate : Option SnsFound
  sns_search_invoked : Bool
  session : SessionState
deriving Repr

/-- `execute_search` (search_orchestrator.py lines 57-96): dispatch on the
analysis state's search type. The body reads only `self._analysis_result`; it
never consults the session's conversation turns and never writes any session
field, so the session passes through unchanged on every path. The `None`
search term can only accompany `NO_SEARCH`; on the dispatching paths the
stored term is a string and is modelled by `getD ""`. -/
def execute_search (env : OrchestratorEnv) (st : AnalysisResult)
    (question : String) (session : SessionState) : SearchOutcome :=
  match st.search_type with
  | .TERM_SEARCH =>
    let r := search_general_context env (st.search_term.getD "") true
    ⟨r.1, r.2, false, session⟩
  | .SNS_SEARCH =>
    let r := search_sns_content_with_fallback env (st.search_term.getD "") question
    ⟨r.1.1, r.1.2, r.2, session⟩
  | .GENERAL_TOPIC_SEARCH =>
    let r := search_general_context env (st.search_term.getD "") false
    ⟨r.1, r.2, false, session⟩
  | .NO_SEARCH => ⟨"", none, false, session⟩

/-! ## Exception boundary of execute_search (search_orchestrator.py lines
72-96, decorators.py lines 55-89)

To reason about the failure policy, the three strategy calls inside the `try`
block are modelled as `Except`-valued outcomes (any of them may raise: the
network helpers re-raise after their retries are exhausted). -/

/-- An abstract exception value. -/
structure SearchErr where
  message : String
deriving DecidableEq, Repr

/-- The strategy dispatch inside the `try` block of `execute_search`
(lines 73-87): which strategy outcome the turn's search type selects. The
`NO_SEARCH` type matches no branch and reaches the trailing
`return "", None` (line 96). -/
def dispatch_strategy (st : AnalysisResult)
    (term_r sns_r general_r : Except SearchErr (String × Option SnsFound)) :
    Except SearchErr (String × Option SnsFound) :=
  match st.search_type with
  | .TERM_SEARCH => term_r
  | .SNS_SEARCH => sns_r
  | .GENERAL_TOPIC_SEARCH => general_r
  | .NO_SEARCH => .ok ("", none)

/-- The `try ... except Exception` of `execute_search` (lines 72-94): a raised
exception is logged and converted to `("", None)`. -/
def execute_search_body (st : AnalysisResult)
    (term_r sns_r general_r : Except SearchErr (String × Option SnsFound)) :
    Except SearchErr (String × Option SnsFound) :=
  match dispatch_strategy st term_r sns_r general_r with
  | .ok r => .ok r
  | .error _ => .ok ("", none)

/-- The `log_search_execution` decorator (decorators.py lines 55-89): it
returns the inner result unchanged on success and re-raises the inner
exception on failure. -/
def log_search_execution (inner : Except SearchErr (String × Option SnsFound)) :
    Except SearchErr (String × Option SnsFound) :=
  match inner with
  | .ok r => .ok r
  | .error e => .error e

/-- `execute_search` as seen by its caller: the decorated body. -/
def execute_search_exc (st : AnalysisResult)
    (term_r sns_r general_r : Except SearchErr (String × Option SnsFound)) :
    Except SearchErr (String × Option SnsFound) :=
  log_search_execution (execute_search_body st term_r sns_r general_r)

/-! ## Retry policy (src/src/utils/decorators.py lines 29-52) -/

/-- How one call of a `retry_on_error`-wrapped function ends: a returned
value, a raised exception, or Python's implicit `return None` when the
`for attempt in range(1, max_attempts + 1)` loop body never runs. -/
inductive RetryOutcome (E A : Type) where
  | returned (a : A)
  | raised (e : E)
  | fell_through
deriving DecidableEq, Repr

/-- Instrumented trace of one wrapped call: its outcome, the number of times
the wrapped operation was invoked, and the sequence of `time.sleep` delays
performed between attempts. -/
structure RetryTrace (E A D : Type) where
  outcome : RetryOutcome E A
  calls : Nat
  sleeps : List D
deriving DecidableEq, Repr

/-- The loop of the `retry_on_error` wrapper (decorators.py lines 35-48):
`op n` is what the n-th invocation of the wrapped operation does (1-indexed).
`remaining` is how many loop iterations are left, `attempt` the current
attempt number. A success returns immediately; a failure with attempts
remaining sleeps `delay` and retries; a failure on the last attempt re-raises. -/
def retry_go {E A D : Type} (op : Nat → Except E A) (delay : D) (attempt : Nat) :
    Nat → RetryTrace E A D
  | 0 => ⟨.fell_through, 0, []⟩
  | remaining + 1 =>
    match op attempt with
    | .ok a => ⟨.returned a, 1, []⟩
    | .error e =>
      match remaining with
      | 0 => ⟨.raised e, 1, []⟩
      | r + 1 =>
        let t := retry_go op delay (attempt + 1) (r + 1)
        ⟨t.outcome, t.calls + 1, delay :: t.sleeps⟩

/-- One call of a function wrapped by `retry_on_error(max_attempts, delay)`:
`range(1, max_attempts + 1)` runs `max(0, max_attempts)` iterations starting
at attempt 1; with a non-positive `max_attempts` the loop body never runs and
the wrapper falls through, returning `None`. -/
def retry_on_error {E A D : Type} (op : Nat → Except E A) (max_attempts : Int)
    (delay : D) : RetryTrace E A D :=
  retry_go op delay 1 max_attempts.toNat

/-! ## Lemmas about the dedup loop -/

/-- Every candidate emitted by the dedup loop has a non-empty url not in the
incoming seen set, and is the first candidate of the input carrying its url. -/
theorem dedup_go_mem_spec (cs : List Candidate) :
    ∀ (seen : List String) (c : Candidate), c ∈ dedup_go cs seen →
      c.url ≠ "" ∧ c.url ∉ seen ∧ cs.find? (fun d => d.url == c.url) = some c := by
  induction cs with
  | nil =>
    intro seen c h
    simp [dedup_go] at h
  | cons c0 rest ih =>
    intro seen c h
    by_cases hc0 : c0.url ≠ "" ∧ c0.url ∉ seen
    · rw [dedup_go, if_pos hc0] at h
      rcases List.mem_cons.mp h with h | hmem
      · subst h
        refine ⟨hc0.1, hc0.2, ?_⟩
        apply List.find?_cons_of_pos
        simp
      · obtain ⟨hne, hnotin, hfind⟩ := ih (c0.url :: seen) c hmem
        have hne0 : c.url ≠ c0.url := by
          intro he
          exact hnotin (by simp [he])
        refine ⟨hne, fun hin => hnotin (List.mem_cons_of_mem _ hin), ?_⟩
        have hstep : List.find? (fun d => d.url == c.url) (c0 :: rest) =
            List.find? (fun d => d.url == c.url) rest := by
          apply List.find?_cons_of_neg
          simp
          exact fun he => hne0 he.symm
        rw [hstep]
        exact hfind
    · rw [dedup_go, if_neg hc0] at h
      obtain ⟨hne, hnotin, hfind⟩ := ih seen c h
      have hne0 : c.url ≠ c0.url := by
        rcases not_and_or.mp hc0 with h0 | h0
        · intro he
          exact hne (he.trans (not_not.mp h0))
        · intro he
          exact hnotin (he ▸ not_not.mp h0)
      refine ⟨hne, hnotin, ?_⟩
      have hstep : List.find? (fun d => d.url == c.url) (c0 :: rest) =
          List.find? (fun d => d.url == c.url) rest := by
        apply List.find?_cons_of_neg
        simp
        exact fun he => hne0 he.symm
      rw [hstep]
      exact hfind

/-- The dedup loop output has pairwise distinct urls. -/
theorem dedup_go_pairwise (cs : List Candidate) :
    ∀ seen : List String, (dedup_go cs seen).Pairwise (fun a b => a.url ≠ b.url) := by
  induction cs with
  | nil =>
    intro seen
    simp [dedup_go]
  | cons c0 rest ih =>
    intro seen
    by_cases hc0 : c0.url ≠ "" ∧ c0.url ∉ seen
    · rw [dedup_go, if_pos hc0]
      refine List.Pairwise.cons ?_ (ih (c0.url :: seen))
      intro b hb
      have := (dedup_go_mem_spec rest (c0.url :: seen) b hb).2.1
      intro he
      exact this (by simp [he])
    · rw [dedup_go, if_neg hc0]
      exact ih seen

/-- If the input contains a candidate with a given non-empty, not-yet-seen
url, so does the dedup loop output. -/
theorem dedup_go_exists (cs : List Candidate) :
    ∀ (seen : List String) (u : String), u ≠ "" → u ∉ seen →
      (∃ c ∈ cs, c.url = u) → ∃ c ∈ dedup_go cs seen, c.url = u := by
  induction cs with
  | nil =>
    intro seen u _ _ hex
    simp at hex
  | cons c0 rest ih =>
    intro seen u hu hseen hex
    by_cases hc0 : c0.url ≠ "" ∧ c0.url ∉ seen
    · rw [dedup_go, if_pos hc0]
      by_cases he0 : c0.url = u
      · exact ⟨c0, List.mem_cons_self _ _, he0⟩
      · obtain ⟨c, hc, hcu⟩ := hex
        rcases List.mem_cons.mp hc with h | h
        · exact absurd (h ▸ hcu) he0
        · obtain ⟨c1, hc1, hc1u⟩ := ih (c0.url :: seen) u hu
            (by
              simp
              exact ⟨fun he => he0 he.symm, hseen⟩)
            ⟨c, h, hcu⟩
          exact ⟨c1, List.mem_cons_of_mem _ hc1, hc1u⟩
    · rw [dedup_go, if_neg hc0]
      obtain ⟨c, hc, hcu⟩ := hex
      rcases List.mem_cons.mp hc with h | h
      · exfalso
        have hc0u : c0.url = u := by
          rw [← h]
          exact hcu
        rcases not_and_or.mp hc0 with h0 | h0
        · exact hu (hc0u ▸ not_not.mp h0)
        · exact hseen (hc0u ▸ not_not.mp h0)
      · exact ih seen u hu hseen ⟨c, h, hcu⟩

/-- C3: for every collection of per-window, per-provider candidate lists (here:
any concatenated candidate list), the merged-and-deduplicated list produced by
`_search_all_time_ranges_parallel` contains no two candidates with the same
url, and every retained candidate is the first occurrence of its url in
concatenation order. -/
theorem dedup_unique_first_occurrence (cs : List Candidate) :
    (dedup_by_url cs).Pairwise (fun a b => a.url ≠ b.url) ∧
    ∀ c ∈ dedup_by_url cs, cs.find? (fun d => d.url == c.url) = some c := by
  constructor
  · exact dedup_go_pairwise cs []
  · intro c hc
    exact (dedup_go_mem_spec cs [] c hc).2.2

/-- A concrete candidate used to exercise the dedup theorem: an Instagram hit. -/
def wa : Candidate :=
  ⟨"instagram", "https://www.instagram.com/p/one/", "t1", "첫 게시물", "google_images", none⟩

/-- A concrete candidate with a distinct url. -/
def wb : Candidate :=
  ⟨"youtube", "https://www.youtube.com/watch?v=two", "t2", "영상", "youtube_api_v3", none⟩

/-- A concrete duplicate of `wa`'s url with different display metadata. -/
def wa2 : Candidate :=
  ⟨"instagram", "https://www.instagram.com/p/one/", "t3", "중복 게시물", "google_images", none⟩

/-- Witness for C3 at the concrete list `[wa, wb, wa2]`: the duplicate-url
candidate `wa2` is dropped and the retained `wa` is the first occurrence. -/
theorem dedup_unique_first_occurrence_witness :
    wa ∈ dedup_by_url [wa, wb, wa2] ∧
    [wa, wb, wa2].find? (fun d => d.url == wa.url) = some wa :=
  ⟨by decide, (dedup_unique_first_occurrence [wa, wb, wa2]).2 wa (by decide)⟩

/-! ## C4: completion-order dependence of the merge -/

/-- The Google-Images-surfaced copy of a YouTube watch url (the image backend
legitimately produces candidates with `platform = "youtube"`, see
search_service.py lines 371-382). -/
def img_copy : Candidate :=
  ⟨"youtube", "https://www.youtube.com/watch?v=dup", "thumb-img", "이미지 제공자 제목",
    "google_images", none⟩

/-- The YouTube-Data-API copy of the same url with a different title. -/
def yt_copy : Candidate :=
  ⟨"youtube", "https://www.youtube.com/watch?v=dup", "thumb-yt", "비디오 플랫폼 제목",
    "youtube_api_v3", none⟩

/-- A provider environment in which both providers return the same url (with
different titles) for the most-recent window and nothing else. -/
def dup_env : ProviderEnv where
  images_fetch := fun tbs => if tbs = some "qdr:m3" then [img_copy] else []
  youtube_fetch := fun tbs => if tbs = some "qdr:m3" then [yt_copy] else []

/-- The submission-order task results of `dup_env`: per window the image task
precedes the video task, so the image copy comes first. -/
def dup_tasks : List (List Candidate) := submitted_tasks dup_env

/-- The same task results in a different completion order: the video task of
the first window finished before the image task. -/
def dup_tasks_swapped : List (List Candidate) :=
  [with_time_range_meta "최근 3개월" [yt_copy],
   with_time_range_meta "최근 3개월" [img_copy],
   [], [], [], [], [], []]

/-- C4 counterexample: the two completion orders are permutations of the same
per-window provider results, yet `merged_candidates` differs between them —
the merge is not deterministic — and in submission order (images submitted
first per window) the surviving entry carries the image-provider's title, not
the video-platform's. -/
theorem merge_order_depends_on_completion :
    dup_tasks.Perm dup_tasks_swapped ∧
    merged_candidates dup_tasks ≠ merged_candidates dup_tasks_swapped ∧
    (merged_candidates dup_tasks).map Candidate.title = ["이미지 제공자 제목"] ∧
    (merged_candidates dup_tasks_swapped).map Candidate.title = ["비디오 플랫폼 제목"] := by
  refine ⟨?_, by decide, by decide, by decide⟩
  have h : dup_tasks =
      with_time_range_meta "최근 3개월" [img_copy] ::
      with_time_range_meta "최근 3개월" [yt_copy] ::
      [[], [], [], [], [], []] := by decide
  rw [h]
  exact List.Perm.swap _ _ _

/-- C4 amended: the merged list depends on completion order; for every
non-empty url it contains exactly the first candidate carrying that url in
completion-concatenation order (so a url shared by two providers keeps the
title of whichever fetch completed first). -/
theorem merged_keeps_first_completed_per_url (completed : List (List Candidate))
    (u : String) (hu : u ≠ "") (c : Candidate) :
    (c ∈ merged_candidates completed ∧ c.url = u) ↔
      completed.flatten.find? (fun d => d.url == u) = some c := by
  constructor
  · rintro ⟨hm, hcu⟩
    have hfind := (dedup_go_mem_spec completed.flatten [] c hm).2.2
    simpa [hcu] using hfind
  · intro hfind
    have hp := List.find?_some hfind
    have hcu : c.url = u := by simpa using hp
    have hmem : c ∈ completed.flatten := List.mem_of_find?_eq_some hfind
    obtain ⟨c1, hc1, hc1u⟩ :=
      dedup_go_exists completed.flatten [] u hu (by simp) ⟨c, hmem, hcu⟩
    have hfind1 := (dedup_go_mem_spec completed.flatten [] c1 hc1).2.2
    rw [hc1u] at hfind1
    have : some c1 = some c := hfind1 ▸ hfind
    exact ⟨(Option.some.injEq _ _ ▸ this) ▸ hc1, hcu⟩

/-- Witness for the amended C4 theorem at a concrete completion order: the
swapped completion keeps the video-platform copy for the duplicated url. -/
theorem merged_keeps_first_completed_per_url_witness :
    dup_tasks_swapped.flatten.find?
        (fun d => d.url == "https://www.youtube.com/watch?v=dup") =
      some { yt_copy with time_range_priority := some "최근 3개월" } :=
  (merged_keeps_first_completed_per_url dup_tasks_swapped
    "https://www.youtube.com/watch?v=dup" (by decide)
    { yt_copy with time_range_priority := some "최근 3개월" }).mp
    ⟨by decide, by decide⟩

/-! ## Lemmas about the recency sort -/

/-- Membership through stable insertion. -/
theorem mem_insert_by_priority {x c : Candidate} {l : List Candidate} :
    x ∈ insert_by_priority c l ↔ x = c ∨ x ∈ l := by
  induction l with
  | nil => simp [insert_by_priority]
  | cons d rest ih =>
    by_cases h : get_priority d < get_priority c
    · simp only [insert_by_priority, if_pos h, List.mem_cons, ih]
      tauto
    · simp only [insert_by_priority, if_neg h, List.mem_cons]

/-- Stable insertion preserves sortedness by priority. -/
theorem pairwise_insert_by_priority (c : Candidate) (l : List Candidate)
    (h : l.Pairwise (fun a b => get_priority a ≤ get_priority b)) :
    (insert_by_priority c l).Pairwise (fun a b => get_priority a ≤ get_priority b) := by
  induction l with
  | nil => simp [insert_by_priority]
  | cons d rest ih =>
    rcases List.pairwise_cons.mp h with ⟨hd, hrest⟩
    by_cases hlt : get_priority d < get_priority c
    · rw [insert_by_priority, if_pos hlt]
      refine List.pairwise_cons.mpr ⟨?_, ih hrest⟩
      intro x hx
      rcases mem_insert_by_priority.mp hx with rfl | hx
      · exact Nat.le_of_lt hlt
      · exact hd x hx
    · rw [insert_by_priority, if_neg hlt]
      have hcd : get_priority c ≤ get_priority d := Nat.le_of_not_lt hlt
      refine List.pairwise_cons.mpr ⟨?_, h⟩
      intro x hx
      rcases List.mem_cons.mp hx with rfl | hx
      · exact hcd
      · exact Nat.le_trans hcd (hd x hx)

/-- Filtering one priority class through stable insertion: the inserted
element lands in front of its own class (everything skipped by the insertion
has a strictly smaller priority) and other classes are untouched. -/
theorem filter_insert_by_priority (n : Nat) (c : Candidate) (l : List Candidate) :
    (insert_by_priority c l).filter (fun d => get_priority d == n) =
      if get_priority c == n then
        c :: l.filter (fun d => get_priority d == n)
      else l.filter (fun d => get_priority d == n) := by
  induction l with
  | nil =>
    by_cases h : get_priority c == n <;> simp [insert_by_priority, List.filter, h]
  | cons d rest ih =>
    by_cases hlt : get_priority d < get_priority c
    · rw [insert_by_priority, if_pos hlt]
      by_cases hc : get_priority c = n
      · have hd : ¬ (get_priority d = n) := by omega
        simp only [List.filter, hc]
        simp only [show (get_priority d == n) = false from by simp [hd]]
        rw [ih]
        simp [hc, List.filter, show (get_priority d == n) = false from by simp [hd]]
      · simp only [List.filter]
        rw [ih]
        simp only [show (get_priority c == n) = false from by simp [hc]]
        cases hdn : (get_priority d == n) <;> simp [List.filter, hdn]
    · rw [insert_by_priority, if_neg hlt]
      by_cases hc : get_priority c = n
      · simp [List.filter, hc]
      · simp [List.filter, show (get_priority c == n) = false from by simp [hc]]

/-- C5: `_sort_by_recency` is a stable sort ascending by time-window priority
rank — in its output every earlier candidate's rank is less than or equal to
every later one's, and each equal-rank class keeps the input (merge) order. -/
theorem sort_by_recency_stable_sorted (l : List Candidate) :
    (sort_by_recency l).Pairwise (fun a b => get_priority a ≤ get_priority b) ∧
    ∀ n : Nat, (sort_by_recency l).filter (fun c => get_priority c == n) =
      l.filter (fun c => get_priority c == n) := by
  induction l with
  | nil => exact ⟨List.Pairwise.nil, fun n => rfl⟩
  | cons c rest ih =>
    constructor
    · exact pairwise_insert_by_priority c (sort_by_recency rest) ih.1
    · intro n
      rw [sort_by_recency, filter_insert_by_priority n c (sort_by_recency rest)]
      by_cases hc : get_priority c = n
      · simp only [show (get_priority c == n) = true from by simp [hc], if_true]
        rw [ih.2 n]
        simp [List.filter, show (get_priority c == n) = true from by simp [hc]]
      · simp only [show (get_priority c == n) = false from by simp [hc]]
        rw [ih.2 n]
        simp [List.filter, show (get_priority c == n) = false from by simp [hc]]

/-! ## Lemmas about the relevance-validation loop -/

/-- When the checker judges position `k` (0-based) relevant and every earlier
position irrelevant, the loop returns the `k`-th candidate after exactly
`k + 1` checks. -/
theorem sns_validate_loop_first_relevant (f : RelChecker) (question query : String)
    (hq : question ≠ "") :
    ∀ (l : List Candidate) (k : Nat) (hk : k < l.length),
      f question (l.get ⟨k, hk⟩).title (l.get ⟨k, hk⟩).platform query = true →
      (∀ (j : Nat) (hj : j < k),
        f question (l.get ⟨j, hj.trans hk⟩).title (l.get ⟨j, hj.trans hk⟩).platform query
          = false) →
      sns_validate_loop (some f) question query l =
        (some (to_found (l.get ⟨k, hk⟩)), k + 1) := by
  intro l
  induction l with
  | nil =>
    intro k hk
    exact absurd hk (by simp)
  | cons c rest ih =>
    intro k hk hrel hmin
    cases k with
    | zero =>
      have hc : f question c.title c.platform query = true := hrel
      simp [sns_validate_loop, hq, hc]
    | succ k2 =>
      have hc : f question c.title c.platform query = false :=
        hmin 0 (Nat.succ_pos k2)
      have hk2 : k2 < rest.length := Nat.lt_of_succ_lt_succ hk
      have hrec := ih k2 hk2 hrel (fun j hj => hmin (j + 1) (Nat.succ_lt_succ hj))
      simp [sns_validate_loop, hq, hc, hrec]

/-- C6: in the validation step of the Discovery Engine, when candidate `k`
(1-based: 0-based index `k` here, returning count `k + 1`) is the first one
the relevance checker judges relevant, exactly `k + 1` checks are performed
and that candidate is returned; and whenever no checker or an empty question
is supplied, the first ranked candidate is returned with zero checks. -/
theorem relevance_check_short_circuit
    (f : RelChecker) (question query : String) (l : List Candidate) (k : Nat)
    (hq : question ≠ "") (hk : k < l.length)
    (hrel : f question (l.get ⟨k, hk⟩).title (l.get ⟨k, hk⟩).platform query = true)
    (hmin : ∀ (j : Nat) (hj : j < k),
      f question (l.get ⟨j, hj.trans hk⟩).title (l.get ⟨j, hj.trans hk⟩).platform query
        = false) :
    sns_validate_loop (some f) question query l =
      (some (to_found (l.get ⟨k, hk⟩)), k + 1) ∧
    ∀ (checker : Option RelChecker) (q2 query2 : String) (c : Candidate)
      (rest : List Candidate), checker = none ∨ q2 = "" →
      sns_validate_loop checker q2 query2 (c :: rest) = (some (to_found c), 0) := by
  constructor
  · exact sns_validate_loop_first_relevant f question query hq l k hk hrel hmin
  · rintro checker q2 query2 c rest (rfl | rfl)
    · rfl
    · cases checker with
      | none => rfl
      | some f2 => simp [sns_validate_loop]

/-- The checker used by the C6 witness: relevant iff the title says so. -/
def wit_f : RelChecker := fun _ t _ _ => t == "관련 있는 제목"

/-- First witness candidate: judged irrelevant by `wit_f`. -/
def wit_irrel : Candidate :=
  ⟨"instagram", "https://www.instagram.com/p/w1/", "t1", "무관한 제목", "google_images",
    some "최근 3개월"⟩

/-- Second witness candidate: the first one `wit_f` judges relevant. -/
def wit_rel : Candidate :=
  ⟨"youtube", "https://www.youtube.com/watch?v=w2", "t2", "관련 있는 제목",
    "youtube_api_v3", some "최근 6개월"⟩

/-- Witness for C6: on `[wit_irrel, wit_rel]` the loop checks twice and
returns the second candidate; with no checker it returns the first candidate
with zero checks. -/
theorem relevance_check_short_circuit_witness :
    sns_validate_loop (some wit_f) "질문" "검색어" [wit_irrel, wit_rel] =
      (some (to_found wit_rel), 2) ∧
    sns_validate_loop none "질문" "검색어" [wit_irrel, wit_rel] =
      (some (to_found wit_irrel), 0) := by
  have hk : 1 < ([wit_irrel, wit_rel] : List Candidate).length := by decide
  have hrel : wit_f "질문" (([wit_irrel, wit_rel] : List Candidate).get ⟨1, hk⟩).title
      (([wit_irrel, wit_rel] : List Candidate).get ⟨1, hk⟩).platform "검색어" = true := by
    show wit_f "질문" wit_rel.title wit_rel.platform "검색어" = true
    decide
  have hmin : ∀ (j : Nat) (hj : j < 1),
      wit_f "질문" (([wit_irrel, wit_rel] : List Candidate).get ⟨j, hj.trans hk⟩).title
        (([wit_irrel, wit_rel] : List Candidate).get ⟨j, hj.trans hk⟩).platform "검색어"
        = false := by
    intro j hj
    interval_cases j
    show wit_f "질문" wit_irrel.title wit_irrel.platform "검색어" = false
    decide
  have h := relevance_check_short_circuit wit_f "질문" "검색어" [wit_irrel, wit_rel] 1
    (by decide) hk hrel hmin
  exact ⟨h.1, h.2 none "질문" "검색어" wit_irrel [wit_rel] (Or.inl rfl)⟩

/-! ## C7: not-found SNS search falls back to the general lookup -/

/-- C7: whenever the SNS discovery returns not-found, `execute_search` under
`SNS_SEARCH` produces exactly the context text of a `GENERAL_TOPIC_SEARCH`
dispatch with the same query, and both return a null candidate. -/
theorem sns_not_found_falls_back_to_general (env : OrchestratorEnv)
    (term question : String) (m1 m2 : Bool) (sess : SessionState)
    (hnf : (search_sns_content (some env.checker) question term env.completed_tasks).1
      = none) :
    (execute_search env ⟨.SNS_SEARCH, some term, m1⟩ question sess).context =
      (execute_search env ⟨.GENERAL_TOPIC_SEARCH, some term, m2⟩ question sess).context ∧
    (execute_search env ⟨.SNS_SEARCH, some term, m1⟩ question sess).candidate = none ∧
    (execute_search env ⟨.GENERAL_TOPIC_SEARCH, some term, m2⟩ question sess).candidate
      = none := by
  by_cases hs : env.has_service = false
  · simp [execute_search, search_sns_content_with_fallback, search_general_context, hs]
  · simp [execute_search, search_sns_content_with_fallback, search_general_context,
      hs, hnf]

/-- An environment whose providers return nothing at all, so the SNS search
is definitively not-found. -/
def empty_env : OrchestratorEnv where
  has_service := true
  summary_of := fun _ => "검색 요약"
  current_date := "2026년 10월  12일"
  completed_tasks := []
  checker := fun _ _ _ _ => true

/-- Witness for C7 at `empty_env`: with no candidates the SNS dispatch and the
general dispatch agree on the context and both carry a null candidate. -/
theorem sns_not_found_falls_back_to_general_witness :
    (execute_search empty_env ⟨.SNS_SEARCH, some "근황", false⟩ "질문" {}).context =
      (execute_search empty_env ⟨.GENERAL_TOPIC_SEARCH, some "근황", true⟩ "질문"
        {}).context ∧
    (execute_search empty_env ⟨.SNS_SEARCH, some "근황", false⟩ "질문" {}).candidate
      = none ∧
    (execute_search empty_env ⟨.GENERAL_TOPIC_SEARCH, some "근황", true⟩ "질문"
      {}).candidate = none :=
  sns_not_found_falls_back_to_general empty_env "근황" "질문" false true {} (by decide)

/-! ## C2: the orchestrator boundary absorbs strategy exceptions -/

/-- C2: `execute_search` never raises — for every analysis state and every
outcome of the three dispatch strategies, the decorated call returns
normally, and whenever the dispatched strategy raised, the returned value is
`("", none)`. -/
theorem execute_search_absorbs_strategy_errors (st : AnalysisResult)
    (term_r sns_r general_r : Except SearchErr (String × Option SnsFound)) :
    (∃ r, execute_search_exc st term_r sns_r general_r = .ok r) ∧
    ∀ e, dispatch_strategy st term_r sns_r general_r = .error e →
      execute_search_exc st term_r sns_r general_r = .ok ("", none) := by
  constructor
  · cases hd : dispatch_strategy st term_r sns_r general_r with
    | ok r =>
      exact ⟨r, by simp [execute_search_exc, log_search_execution, execute_search_body, hd]⟩
    | error e =>
      exact ⟨("", none), by
        simp [execute_search_exc, log_search_execution, execute_search_body, hd]⟩
  · intro e hd
    simp [execute_search_exc, log_search_execution, execute_search_body, hd]

/-- Witness for C2: a `GENERAL_TOPIC_SEARCH` turn whose strategy raises is
converted to `("", none)`. -/
theorem execute_search_absorbs_strategy_errors_witness :
    execute_search_exc ⟨.GENERAL_TOPIC_SEARCH, some "검색어", false⟩
      (.ok ("a", none)) (.ok ("b", none)) (.error ⟨"network down"⟩) =
      .ok ("", none) :=
  (execute_search_absorbs_strategy_errors ⟨.GENERAL_TOPIC_SEARCH, some "검색어", false⟩
    (.ok ("a", none)) (.ok ("b", none)) (.error ⟨"network down"⟩)).2
    ⟨"network down"⟩ rfl

/-! ## Lemmas about the retry loop -/

/-- When the first `m` invocations starting at `attempt` fail and invocation
`attempt + m` succeeds within the remaining budget, the loop returns that
success after `m + 1` calls with `m` fixed-delay sleeps. -/
theorem retry_go_success {E A D : Type} (op : Nat → Except E A) (delay : D)
    (a : A) :
    ∀ (m attempt r : Nat), m < r → op (attempt + m) = .ok a →
      (∀ i, i < m → ∃ e, op (attempt + i) = .error e) →
      retry_go op delay attempt r = ⟨.returned a, m + 1, List.replicate m delay⟩ := by
  intro m
  induction m with
  | zero =>
    intro attempt r hr hok _
    match r, hr with
    | rr + 1, _ =>
      rw [retry_go]
      simp at hok
      rw [hok]
      rfl
  | succ m ih =>
    intro attempt r hr hok hbefore
    obtain ⟨e0, he0⟩ := hbefore 0 (Nat.succ_pos m)
    simp at he0
    match r, hr with
    | rr + 1, hr =>
      have hm : m < rr := Nat.lt_of_succ_lt_succ hr
      match rr, hm with
      | rr2 + 1, hm =>
        rw [retry_go, he0]
        have hrec := ih (attempt + 1) (rr2 + 1) hm
          (by
            have he : attempt + 1 + m = attempt + (m + 1) := by omega
            rw [he]
            exact hok)
          (fun i hi => by
            obtain ⟨e, he⟩ := hbefore (i + 1) (Nat.succ_lt_succ hi)
            refine ⟨e, ?_⟩
            have heq : attempt + 1 + i = attempt + (i + 1) := by omega
            rw [heq]
            exact he)
        show (⟨(retry_go op delay (attempt + 1) (rr2 + 1)).outcome,
            (retry_go op delay (attempt + 1) (rr2 + 1)).calls + 1,
            delay :: (retry_go op delay (attempt + 1) (rr2 + 1)).sleeps⟩ :
            RetryTrace E A D) =
          ⟨.returned a, m + 1 + 1, List.replicate (m + 1) delay⟩
        rw [hrec]
        rfl

/-- When every invocation in the remaining budget fails, the loop re-raises
the error of the last attempt after `r` calls and `r - 1` sleeps. -/
theorem retry_go_all_fail {E A D : Type} (op : Nat → Except E A) (delay : D)
    (es : Nat → E) :
    ∀ (r attempt : Nat), 1 ≤ r →
      (∀ i, i < r → op (attempt + i) = .error (es (attempt + i))) →
      retry_go op delay attempt r =
        ⟨.raised (es (attempt + r - 1)), r, List.replicate (r - 1) delay⟩ := by
  intro r
  induction r with
  | zero =>
    intro attempt hr
    exact absurd hr (by omega)
  | succ r ih =>
    intro attempt _ hall
    have h0 := hall 0 (Nat.succ_pos r)
    simp at h0
    cases r with
    | zero =>
      rw [retry_go, h0]
      simp
    | succ r2 =>
      rw [retry_go, h0]
      have hrec := ih (attempt + 1) (Nat.succ_pos r2)
        (fun i hi => by
          have h := hall (i + 1) (Nat.succ_lt_succ hi)
          have heq : attempt + 1 + i = attempt + (i + 1) := by omega
          rw [heq]
          exact h)
      show (⟨(retry_go op delay (attempt + 1) (r2 + 1)).outcome,
          (retry_go op delay (attempt + 1) (r2 + 1)).calls + 1,
          delay :: (retry_go op delay (attempt + 1) (r2 + 1)).sleeps⟩ :
          RetryTrace E A D) =
        ⟨.raised (es (attempt + (r2 + 1 + 1) - 1)), r2 + 1 + 1,
          List.replicate (r2 + 1 + 1 - 1) delay⟩
      rw [hrec]
      have hidx : attempt + 1 + (r2 + 1) - 1 = attempt + (r2 + 1 + 1) - 1 := by omega
      rw [hidx]
      rfl

/-- C8: the retry wrapper invokes the operation up to `max_attempts` times,
returns the first success, sleeps the fixed delay between consecutive failed
attempts (no backoff growth), and when every attempt raises it re-raises the
last exception unchanged. -/
theorem retry_contract :
    (∀ (E A D : Type) (op : Nat → Except E A) (max_attempts : Int) (delay : D)
      (k : Nat) (a : A), 1 ≤ k → (k : Int) ≤ max_attempts → op k = .ok a →
      (∀ j, 1 ≤ j → j < k → ∃ e, op j = .error e) →
      retry_on_error op max_attempts delay =
        ⟨.returned a, k, List.replicate (k - 1) delay⟩) ∧
    (∀ (E A D : Type) (op : Nat → Except E A) (max_attempts : Int) (delay : D)
      (es : Nat → E), 1 ≤ max_attempts →
      (∀ j : Nat, 1 ≤ j → (j : Int) ≤ max_attempts → op j = .error (es j)) →
      retry_on_error op max_attempts delay =
        ⟨.raised (es max_attempts.toNat), max_attempts.toNat,
          List.replicate (max_attempts.toNat - 1) delay⟩) := by
  constructor
  · intro E A D op max_attempts delay k a hk hkmax hok hbefore
    have hm : k - 1 < max_attempts.toNat := by omega
    have h1 : 1 + (k - 1) = k := by omega
    have := retry_go_success op delay a (k - 1) 1 max_attempts.toNat hm
      (by
        rw [h1]
        exact hok)
      (fun i hi => by
        obtain ⟨e, he⟩ := hbefore (1 + i) (by omega) (by omega)
        exact ⟨e, he⟩)
    rw [retry_on_error, this]
    have : k - 1 + 1 = k := by omega
    rw [this]
  · intro E A D op max_attempts delay es hmax hall
    have hr : 1 ≤ max_attempts.toNat := by omega
    have := retry_go_all_fail op delay es max_attempts.toNat 1 hr
      (fun i hi => hall (1 + i) (by omega) (by omega))
    rw [retry_on_error, this]
    have h2 : 1 + max_attempts.toNat - 1 = max_attempts.toNat := by omega
    rw [h2]

/-- The operation used by the retry witnesses: fails on attempt 1, succeeds
on attempt 2. -/
def wit_op : Nat → Except String Nat :=
  fun n => if n = 2 then .ok 42 else .error "transient"

/-- Witness for C8: with `max_attempts = 3` and `wit_op` failing once, the
wrapper returns 42 after two calls and one fixed-delay sleep; and an
always-failing operation under `max_attempts = 2` re-raises the second
error after one sleep. -/
theorem retry_contract_witness :
    retry_on_error wit_op 3 (7 : Nat) = ⟨.returned 42, 2, [7]⟩ ∧
    retry_on_error (fun n => (.error (toString n) : Except String Nat)) 2 (5 : Nat)
      = ⟨.raised "2", 2, [5]⟩ := by
  constructor
  · exact retry_contract.1 String Nat Nat wit_op 3 7 2 42 (by decide) (by decide)
      rfl
      (by
        intro j h1 h2
        interval_cases j
        exact ⟨"transient", rfl⟩)
  · exact retry_contract.2 String Nat Nat
      (fun n => (.error (toString n) : Except String Nat)) 2 5 (fun n => toString n)
      (by decide) (fun j _ _ => rfl)

/-- C10: Python's `range(1, max_attempts + 1)` never runs for a non-positive
`max_attempts`, so the wrapper silently returns `None` with zero invocations
and no raise; the operation is invoked at least once exactly when
`max_attempts >= 1`. -/
theorem retry_nonpositive_attempts :
    (∀ (E A D : Type) (op : Nat → Except E A) (max_attempts : Int) (delay : D),
      max_attempts ≤ 0 →
      retry_on_error op max_attempts delay = ⟨.fell_through, 0, []⟩) ∧
    (∀ (E A D : Type) (op : Nat → Except E A) (max_attempts : Int) (delay : D),
      1 ≤ max_attempts → 1 ≤ (retry_on_error op max_attempts delay).calls) := by
  constructor
  · intro E A D op max_attempts delay hmax
    have h0 : max_attempts.toNat = 0 := by omega
    rw [retry_on_error, h0, retry_go]
  · intro E A D op max_attempts delay hmax
    have h1 : ∃ n, max_attempts.toNat = n + 1 := ⟨max_attempts.toNat - 1, by omega⟩
    obtain ⟨n, hn⟩ := h1
    rw [retry_on_error, hn, retry_go]
    cases op 1 with
    | ok a => exact Nat.le_refl 1
    | error e =>
      cases n with
      | zero => exact Nat.le_refl 1
      | succ n2 => simp

/-- Witness for C10: `max_attempts = -2` yields the fell-through `None` trace
with zero calls, while `max_attempts = 3` calls the operation. -/
theorem retry_nonpositive_attempts_witness :
    retry_on_error wit_op (-2) (7 : Nat) = ⟨.fell_through, 0, []⟩ ∧
    1 ≤ (retry_on_error wit_op 3 (7 : Nat)).calls :=
  ⟨retry_nonpositive_attempts.1 String Nat Nat wit_op (-2) 7 (by decide),
   retry_nonpositive_attempts.2 String Nat Nat wit_op 3 7 (by decide)⟩

/-! ## C1 and C9: the missing cooldown suppression and success bookkeeping -/

/-- A candidate the providers return for the C1/C9 scenario, tagged with the
most-recent window. -/
def cd_cand : Candidate :=
  ⟨"youtube", "https://www.youtube.com/watch?v=vlog", "thumb", "오늘의 브이로그",
    "youtube_api_v3", some "최근 3개월"⟩

/-- The turn environment for the C1/C9 scenario: a configured search service,
providers that surfaced `cd_cand`, and a relevance agent that accepts it. -/
def cooldown_env : OrchestratorEnv where
  has_service := true
  summary_of := fun _ => "요약"
  current_date := "2026년 10월 12일"
  completed_tasks := [[cd_cand]]
  checker := fun _ _ _ _ => true

/-- A session in which the assistant shared social content on the immediately
preceding turn: its stored message carries an `sns_content` payload, so the
cooldown predicate over the last 10 turns holds. -/
def cooldown_session : SessionState where
  proactive_share_count := 0
  shared_topics_list := []
  messages := [⟨"assistant", "어제 올린 영상 봤어?",
    some ⟨"youtube", "https://www.youtube.com/watch?v=old", "t", "어제 영상"⟩⟩]

/-- The analysis state of the scenario: a `SNS_SEARCH` turn in which the user
did not ask to be shown media — an unsolicited share opportunity. -/
def cooldown_state : AnalysisResult :=
  ⟨.SNS_SEARCH, some "브이로그", false⟩

/-- C1 divergence witnessed on the code: with social content shared within the
last 10 turns and `is_media_requested = false`, `execute_search` still invokes
the SNS discovery (for every session state — the body never reads the
session), and returns a non-empty context with a candidate instead of
`("", none)`. The spec's cooldown suppression does not exist in
`execute_search` (search_orchestrator.py lines 57-96). -/
theorem cooldown_not_enforced :
    has_social_content_in_last_n_turns cooldown_session 10 = true ∧
    cooldown_state.search_type = .SNS_SEARCH ∧
    cooldown_state.is_media_requested = false ∧
    (∀ sess : SessionState,
      (execute_search cooldown_env cooldown_state "질문" sess).sns_search_invoked
        = true) ∧
    (execute_search cooldown_env cooldown_state "질문" cooldown_session).context ≠ "" ∧
    (execute_search cooldown_env cooldown_state "질문"
      cooldown_session).candidate.isSome = true := by
  refine ⟨by decide, rfl, rfl, fun sess => rfl, by decide, by decide⟩

/-- C9 divergence witnessed on the code: `execute_search` returns the session
unchanged on every path (first conjunct), so even on a successful unsolicited
social share neither `add_shared_topic` nor `increment_proactive_share_count`
is ever applied: after the turn the shared-topics memory is still empty and
the proactive-share count still zero. -/
theorem success_bookkeeping_not_recorded :
    (∀ (env : OrchestratorEnv) (st : AnalysisResult) (q : String)
      (sess : SessionState), (execute_search env st q sess).session = sess) ∧
    (execute_search cooldown_env cooldown_state "질문"
      cooldown_session).candidate.isSome = true ∧
    cooldown_state.is_media_requested = false ∧
    (execute_search cooldown_env cooldown_state "질문"
      cooldown_session).session.shared_topics_list = [] ∧
    (execute_search cooldown_env cooldown_state "질문"
      cooldown_session).session.proactive_share_count = 0 := by
  refine ⟨?_, by decide, rfl, by decide, by decide⟩
  intro env st q sess
  rcases st with ⟨ty, term, m⟩
  cases ty <;> rfl

end ChatbotAgent
